import Mathlib

/-
Verification of the S4 repository: a shallow embedding of its two source
files and proofs of the specified properties.

The repository consists of
  * examples/PythonExamples/RDFLib/update_sparqlwrapper.py — an example
    script that builds a SPARQL update request with the third-party
    SPARQLWrapper client and submits it once; and
  * S4-Clients/Python-client/setup.py — the package descriptor.

The example script drives the third-party SPARQLWrapper client through its
setter interface and a single call to query().  We embed the client as a
record of the request attributes the script sets (endpoint URL, query text,
credential pair, HTTP verb), each setter as a record update, and query() as
the submission of the request assembled from the current attributes.  The
run of the script is a trace of external effects; the script performs no
effect other than the single submission, so its trace is a singleton.

setup.py is embedded as a function of its environment: which of the two
setup providers is importable, and whether README.rst is readable.  Its
result is either the error that aborts the run or the single setup() call
the run performs.
-/

namespace S4

/-! ## The SPARQL update request and the client interface -/

/-- The request handed to the transport at submission time: the values of
the attributes the script has set on the client when query() runs. -/
structure Request where
  url : String
  httpMethod : String
  body : String
  user : Option String
  passwd : Option String
  deriving Repr, DecidableEq

/-- The mutable state of the SPARQLWrapper client object, restricted to the
attributes the example script touches.  `queryText` and the credential pair
start unset; the client library defaults the HTTP verb to GET until the
script assigns it. -/
structure SPARQLWrapper where
  endpoint : String
  queryText : Option String
  user : Option String
  passwd : Option String
  method : String
  deriving Repr, DecidableEq

/-- `SPARQLWrapper(url)` — construction from the endpoint URL. -/
def SPARQLWrapper.init (url : String) : SPARQLWrapper :=
  { endpoint := url, queryText := none, user := none, passwd := none,
    method := "GET" }

/-- `sparql.setQuery(q)` stores the query string on the client. -/
def SPARQLWrapper.setQuery (w : SPARQLWrapper) (q : String) : SPARQLWrapper :=
  { w with queryText := some q }

/-- `sparql.setCredentials(u, p)` stores the credential pair. -/
def SPARQLWrapper.setCredentials (w : SPARQLWrapper) (u p : String) :
    SPARQLWrapper :=
  { w with user := some u, passwd := some p }

/-- `sparql.method = m` — direct assignment of the HTTP verb attribute. -/
def SPARQLWrapper.setMethod (w : SPARQLWrapper) (m : String) : SPARQLWrapper :=
  { w with method := m }

/-- The request that `sparql.query()` submits: the endpoint, verb,
credentials and query text held by the client at the moment of the call
(the query text as the request body). -/
def SPARQLWrapper.mkRequest (w : SPARQLWrapper) : Request :=
  { url := w.endpoint, httpMethod := w.method, body := w.queryText.getD "",
    user := w.user, passwd := w.passwd }

/-- `sparql.query()` over an explicit transport: the client hands the
assembled request to the transport and returns the transport result
unchanged — the script wraps the call in no handler. -/
def SPARQLWrapper.queryWith (w : SPARQLWrapper)
    (transport : Request → Except String Unit) : Except String Unit :=
  transport w.mkRequest

/-! ## The example script update_sparqlwrapper.py -/

/-- The `queryString` literal of the script (a Python triple-quoted string:
leading and trailing newlines included, two spaces after `dc:title`). -/
def queryString : String :=
  "\nPREFIX dc: <http://purl.org/dc/elements/1.1/>\nINSERT \x7b <http://example/egbook> dc:title  \"This is an example title\" \x7d\nWHERE \x7b\x7d\n"

/-- The endpoint URL the script passes to the constructor, spelled as the
same two-part concatenation the source uses. -/
def scriptEndpoint : String :=
  "https://rdf.s4.ontotext.com/<user-id>/" ++
  "<db-id>/repositories/<repo-name>/statements"

/-- Client state after `sparql = SPARQLWrapper(...)`. -/
def sparqlStep0 : SPARQLWrapper := SPARQLWrapper.init scriptEndpoint

/-- Client state after `sparql.setQuery(queryString)`. -/
def sparqlStep1 : SPARQLWrapper := sparqlStep0.setQuery queryString

/-- Client state after `sparql.setCredentials("<s4-api-key>", "<s4-key-secret>")`. -/
def sparqlStep2 : SPARQLWrapper :=
  sparqlStep1.setCredentials "<s4-api-key>" "<s4-key-secret>"

/-- Client state after `sparql.method = "POST"` — the state on which
`sparql.query()` is invoked. -/
def sparqlStep3 : SPARQLWrapper := sparqlStep2.setMethod "POST"

/-- The externally visible effects a run of the script could perform. -/
inductive Effect where
  | httpSubmit : Request → Effect
  | fileRead : String → Effect
  | fileWrite : String → Effect
  | envRead : String → Effect
  | envSet : String → Effect
  deriving Repr, DecidableEq

/-- Whether an effect touches the filesystem or the environment. -/
def Effect.touchesFileOrEnv : Effect → Bool
  | Effect.httpSubmit _ => false
  | _ => true

/-- The effect trace of one run of the script: the module body performs no
file or environment access and exactly one external call, `sparql.query()`,
on the fully configured client. -/
def scriptEffects : List Effect := [Effect.httpSubmit sparqlStep3.mkRequest]

/-- The HTTP submissions contained in the script run trace. -/
def scriptRequests : List Request :=
  scriptEffects.filterMap fun e =>
    match e with
    | Effect.httpSubmit r => some r
    | _ => none

/-- The run of the script against an explicit transport: everything before
`sparql.query()` is pure construction, and the script returns (propagates)
whatever the single client call returns. -/
def runScript (transport : Request → Except String Unit) :
    Except String Unit :=
  sparqlStep3.queryWith transport

/-- Modelled from the spec: the documented endpoint shape
`https://rdf.<host>/<user-id>/<db-id>/repositories/<repo-name>/statements`
as a substitution template. -/
def endpointPattern (host userId dbId repoName : String) : String :=
  "https://rdf." ++ host ++ "/" ++ userId ++ "/" ++ dbId ++
  "/repositories/" ++ repoName ++ "/statements"

/-! ## The package descriptor setup.py -/

/-- The keyword arguments of the one `setup(...)` call in setup.py. -/
structure SetupArgs where
  name : String
  version : String
  author : String
  author_email : String
  packages : List String
  include_package_data : Bool
  url : String
  license : String
  description : String
  long_description : String
  install_requires : List String
  deriving Repr, DecidableEq

/-- The `description` string of setup.py (the apostrophe of `Suite's` is
spelled by its code point). -/
def descriptionString : String :=
  "Ontotext Self-Service Semantic Suite" ++ String.singleton (Char.ofNat 39) ++
  "s SDK " ++ "for Python3. For more information, " ++
  "visit http://s4.ontotext.com"

/-- The argument record of the setup() call, given the text read from
README.rst (which setup.py passes as `long_description`). -/
def mkSetupArgs (readme : String) : SetupArgs :=
  { name := "s4api"
    version := "1.1.0"
    author := "Svetlin Slavov"
    author_email := "svetlin.slavov@ontotext.com"
    packages := ["s4api", "s4api.models"]
    include_package_data := true
    url := "https://pypi.python.org/pypi/s4api"
    license := "Apache License 2.0"
    description := descriptionString
    long_description := readme
    install_requires := ["requests"] }

/-- Which module supplies `setup`. -/
inductive SetupProvider where
  | setuptools
  | distutils
  deriving Repr, DecidableEq

/-- The ways a run of setup.py aborts before reaching setup(). -/
inductive ScriptError where
  | noSetupModule
  | readmeMissing
  deriving Repr, DecidableEq

/-- The try/except at the top of setup.py: setuptools if it imports, else
distutils.core; if neither imports the module body raises. -/
def chooseSetup (hasSetuptools hasDistutils : Bool) : Option SetupProvider :=
  if hasSetuptools then some SetupProvider.setuptools
  else if hasDistutils then some SetupProvider.distutils
  else none

/-- One run of setup.py as a function of its environment: first the import
(raising if neither provider is available), then the `open('README.rst')`
read (raising if the file is absent), then the single setup() call with the
README contents as `long_description`. -/
def runSetupScript (hasSetuptools hasDistutils : Bool)
    (readmeFile : Option String) :
    Except ScriptError (SetupProvider × SetupArgs) :=
  match chooseSetup hasSetuptools hasDistutils with
  | none => Except.error ScriptError.noSetupModule
  | some provider =>
    match readmeFile with
    | none => Except.error ScriptError.readmeMissing
    | some readme => Except.ok (provider, mkSetupArgs readme)

/-- The setup() invocations a run of setup.py performs: one if the run
reaches the call, none if it aborted first. -/
def setupInvocations (hasSetuptools hasDistutils : Bool)
    (readmeFile : Option String) : List SetupArgs :=
  match runSetupScript hasSetuptools hasDistutils readmeFile with
  | Except.ok pr => [pr.2]
  | Except.error _ => []

/-! ## Claims -/

/-- C1: the endpoint URL the script passes to the SPARQL client constructor
is exactly the documented pattern
`https://rdf.<host>/<user-id>/<db-id>/repositories/<repo-name>/statements`
with host `s4.ontotext.com` and the placeholder user id, database id and
repository name substituted in. -/
theorem C1_endpoint_matches_pattern :
    scriptEndpoint =
      endpointPattern "s4.ontotext.com" "<user-id>" "<db-id>" "<repo-name>" := by
  rfl

/-- C2: the script run issues exactly one HTTP submission, and the body of
that single request is the queryString literal — the SPARQL 1.1 Update
`INSERT ... WHERE` string inserting the one dc:title triple; no second
submission occurs. -/
theorem C2_single_post_submission :
    scriptRequests.length = 1 ∧
    scriptRequests.map Request.body = [queryString] ∧
    queryString =
      "\nPREFIX dc: <http://purl.org/dc/elements/1.1/>\nINSERT \x7b <http://example/egbook> dc:title  \"This is an example title\" \x7d\nWHERE \x7b\x7d\n" :=
  ⟨rfl, rfl, rfl⟩

/-- C3: the script performs exactly one update operation, the method
attribute is "POST" on the client state on which query() is invoked, and
the submitted request carries the verb POST and no other. -/
theorem C3_method_is_post :
    sparqlStep3.method = "POST" ∧
    scriptRequests.map Request.httpMethod = ["POST"] :=
  ⟨rfl, rfl⟩

/-- C4: setQuery stores its argument character-for-character unchanged on
the client, and in the script the client at query() time holds exactly the
queryString literal, which becomes the request body unmodified. -/
theorem C4_query_passed_unmodified :
    (∀ (w : SPARQLWrapper) (q : String), (w.setQuery q).queryText = some q) ∧
    sparqlStep3.queryText = some queryString ∧
    sparqlStep3.mkRequest.body = queryString :=
  ⟨fun _ _ => rfl, rfl, rfl⟩

/-- C4 witness: the general part of C4 at a concrete client state and
query string. -/
theorem C4_query_passed_unmodified_witness :
    ((SPARQLWrapper.init "u").setQuery "q").queryText = some "q" :=
  C4_query_passed_unmodified.1 (SPARQLWrapper.init "u") "q"

/-- C5: setCredentials stores exactly the given key and secret, and at the
moment query() is called in the script the submitted request carries
exactly the credential pair that was set, unchanged. -/
theorem C5_credentials_carried :
    (∀ (w : SPARQLWrapper) (u p : String),
      (w.setCredentials u p).user = some u ∧
      (w.setCredentials u p).passwd = some p) ∧
    sparqlStep3.mkRequest.user = some "<s4-api-key>" ∧
    sparqlStep3.mkRequest.passwd = some "<s4-key-secret>" :=
  ⟨fun _ _ _ => ⟨rfl, rfl⟩, rfl, rfl⟩

/-- C5 witness: the general part of C5 at a concrete client state and
credential pair. -/
theorem C5_credentials_carried_witness :
    ((SPARQLWrapper.init "u").setCredentials "k" "s").user = some "k" ∧
    ((SPARQLWrapper.init "u").setCredentials "k" "s").passwd = some "s" :=
  C5_credentials_carried.1 (SPARQLWrapper.init "u") "k" "s"

/-- C6: the script neither handles nor transforms failures: its result is
the transport result of the single client call, unchanged, so for every
transport the script run fails with a given error exactly when the
underlying client call does. -/
theorem C6_errors_propagate :
    ∀ (transport : Request → Except String Unit),
      runScript transport = transport sparqlStep3.mkRequest ∧
      ∀ (e : String),
        (runScript transport = Except.error e ↔
          transport sparqlStep3.mkRequest = Except.error e) :=
  fun _ => ⟨rfl, fun _ => Iff.rfl⟩

/-- C6 witness: C6 at a concrete always-failing transport and error. -/
theorem C6_errors_propagate_witness :
    runScript (fun _ => Except.error "network down") =
      Except.error "network down" :=
  (C6_errors_propagate (fun _ => Except.error "network down")).1.trans rfl

/-- C7: whatever README text the descriptor read, the install_requires list
of the setup() call has length one and its sole element is "requests". -/
theorem C7_single_runtime_dependency :
    ∀ (readme : String),
      (mkSetupArgs readme).install_requires = ["requests"] ∧
      (mkSetupArgs readme).install_requires.length = 1 :=
  fun _ => ⟨rfl, rfl⟩

/-- C7 witness: C7 at a concrete README text. -/
theorem C7_single_runtime_dependency_witness :
    (mkSetupArgs "readme").install_requires = ["requests"] :=
  (C7_single_runtime_dependency "readme").1

/-- C8: the effect trace of the script run is exactly one HTTP submission
of the fully configured request: no file is read or written, no environment
variable is read or set, and the request is submitted exactly once and
never reused. -/
theorem C8_no_persistent_state :
    scriptEffects = [Effect.httpSubmit sparqlStep3.mkRequest] ∧
    scriptEffects.filter Effect.touchesFileOrEnv = [] ∧
    scriptRequests.length = 1 :=
  ⟨rfl, rfl, rfl⟩

/-- C9 counterexample: with setuptools importable but README.rst absent,
the run of setup.py aborts on the file read, so an import succeeded yet
setup() is invoked zero times — refuting ``for every run in which one of
the two imports succeeds, setup() is invoked exactly once``. -/
theorem C9_counterexample_readme_missing :
    (true || false) = true ∧
    (setupInvocations true false none).length ≠ 1 :=
  ⟨rfl, by decide⟩

/-- C9 (amended): if one of the two imports succeeds and the README.rst
read succeeds, setup() is invoked exactly once, with the same argument
record whichever provider was chosen; in particular when setuptools is
unavailable the run falls back to distutils.core.setup with identical
arguments. -/
theorem C9_import_fallback :
    ∀ (hasSetuptools hasDistutils : Bool) (readme : String),
      (hasSetuptools || hasDistutils) = true →
      setupInvocations hasSetuptools hasDistutils (some readme) =
        [mkSetupArgs readme] ∧
      runSetupScript false true (some readme) =
        Except.ok (SetupProvider.distutils, mkSetupArgs readme) := by
  intro hs hd readme h
  cases hs with
  | true => exact ⟨rfl, rfl⟩
  | false =>
    cases hd with
    | true => exact ⟨rfl, rfl⟩
    | false => simp at h

/-- C9 witness: the amended C9 at the fallback environment — setuptools
absent, distutils present, a concrete README text. -/
theorem C9_import_fallback_witness :
    (false || true) = true ∧
    setupInvocations false true (some "sample readme") =
      [mkSetupArgs "sample readme"] :=
  ⟨by decide, (C9_import_fallback false true "sample readme" (by decide)).1⟩

/-- C10: the setup() call uses the exact README.rst contents as
long_description, and whenever an import succeeded but README.rst is
absent the run raises before setup() is ever invoked, so no setup() call
occurs. -/
theorem C10_readme_required :
    (∀ (readme : String), (mkSetupArgs readme).long_description = readme) ∧
    ∀ (hasSetuptools hasDistutils : Bool),
      (hasSetuptools || hasDistutils) = true →
      runSetupScript hasSetuptools hasDistutils none =
        Except.error ScriptError.readmeMissing ∧
      setupInvocations hasSetuptools hasDistutils none = [] := by
  refine ⟨fun _ => rfl, ?_⟩
  intro hs hd h
  cases hs with
  | true => exact ⟨rfl, rfl⟩
  | false =>
    cases hd with
    | true => exact ⟨rfl, rfl⟩
    | false => simp at h

/-- C10 witness: C10 at a concrete README text and at the environment with
both providers importable and README.rst absent. -/
theorem C10_readme_required_witness :
    (mkSetupArgs "exact contents").long_description = "exact contents" ∧
    setupInvocations true true none = [] :=
  ⟨C10_readme_required.1 "exact contents",
   (C10_readme_required.2 true true (by decide)).2⟩

end S4
